import Mathlib

/-!
Verification of the user-profile data-access layer: a shallow embedding of
the TypeScript source (the response normalizer and facade in `src/lib/api.ts`
and the TTL cache with its key builders and invalidation helpers appended to
`src/App.tsx`), together with theorems settling the specification claims.

JavaScript semantics that matter here are modelled explicitly:
truthiness of `x || d` (null/undefined, the empty string and the number 0 are
falsy), `Map` set/get/delete with in-place update, and `String.includes` /
`String.startsWith` as substring / list-prefix tests on character lists.
-/

namespace UserProfiles

/-- JS `x || dflt` for a nullable string: null/undefined and the empty string
are falsy, so both fall back to the default. -/
def jsOrString (x : Option String) (dflt : String) : String :=
  match x with
  | none => dflt
  | some s => if s = "" then dflt else s

/-- JS `s || null` for a string: the empty string is falsy and becomes null;
every other string is kept. -/
def emptyToNull (s : String) : Option String :=
  if s = "" then none else some s

/-- JS `x || dflt` for a nullable number: null/undefined and 0 are falsy. -/
def jsOrNum (x : Option Int) (dflt : Int) : Int :=
  match x with
  | none => dflt
  | some n => if n = 0 then dflt else n

/-- JS `data || []` for a nullable array: null falls back, any array
(including the empty one) is truthy and kept. -/
def jsOrRows (x : Option (List α)) (dflt : List α) : List α :=
  match x with
  | none => dflt
  | some l => l

/-- Boolean list-starts-with test on character lists; the model of JS
`key.startsWith(pat)` once both strings are viewed as char lists. -/
def listStarts : List Char → List Char → Bool
  | [], _ => true
  | _ :: _, [] => false
  | a :: as, b :: bs => a == b && listStarts as bs

/-- JS `s.startsWith(pat)`. -/
def strStarts (s pat : String) : Bool :=
  listStarts pat.toList s.toList

/-- Boolean substring occurrence on character lists. -/
def listHasSub (pat : List Char) : List Char → Bool
  | [] => pat.isEmpty
  | b :: bs => listStarts pat (b :: bs) || listHasSub pat bs

/-- JS `s.includes(pat)`. -/
def strIncludes (s pat : String) : Bool :=
  listHasSub pat.toList s.toList

/-! ## Data model (`src/lib/types.ts` and the Supabase row shape) -/

/-- A row of the `users` table as the backing store returns it; optional
columns are nullable. -/
structure UserRow where
  id : String
  full_name : String
  email : String
  phone_number : Option String
  bio : Option String
  avatar_url : Option String
  date_of_birth : Option String
  location : Option String
  created_at : String
  updated_at : String
deriving DecidableEq

/-- The camelCase domain record exposed to callers (`User` in types.ts). -/
structure User where
  id : String
  fullName : String
  email : String
  phoneNumber : String
  bio : String
  avatarUrl : String
  dateOfBirth : String
  location : String
  createdAt : String
  updatedAt : String
deriving DecidableEq

/-- Form data used by `createUser` (`UserFormData` in types.ts): every field
is a string, with the empty string standing for an unset optional field. -/
structure UserFormData where
  fullName : String
  email : String
  phoneNumber : String
  bio : String
  avatarUrl : String
  dateOfBirth : String
  location : String
deriving DecidableEq

/-- The argument of `updateUser` (`Partial<UserFormData>` in the source): a
field that is `none` is absent (`undefined`), a field that is `some v`
is present with value `v`. -/
structure UserFormPatch where
  fullName : Option String
  email : Option String
  phoneNumber : Option String
  bio : Option String
  avatarUrl : Option String
  dateOfBirth : Option String
  location : Option String
deriving DecidableEq

/-- The snake_case payload `createUser` sends to the store. -/
structure InsertData where
  full_name : String
  email : String
  phone_number : Option String
  bio : Option String
  avatar_url : Option String
  date_of_birth : Option String
  location : Option String
deriving DecidableEq

/-- The snake_case payload `updateUser` sends to the store: an outer `none`
means the column is not written at all; `some v` writes `v`, itself a
nullable string. -/
structure UpdateData where
  full_name : Option String
  email : Option String
  phone_number : Option (Option String)
  bio : Option (Option String)
  avatar_url : Option (Option String)
  date_of_birth : Option (Option String)
  location : Option (Option String)
deriving DecidableEq

/-- A structured store error (`PostgrestError`). -/
structure PostgrestError where
  code : String
  message : String
  details : String
  hint : String
deriving DecidableEq

/-- A thrown JS error as the network-error handler inspects it: an optional
`code` property and a message. The handler also accepts non-Error thrown
values, modelled by `Option JsError` at the call sites. -/
structure JsError where
  code : Option String
  message : String
deriving DecidableEq

/-- An entry of the `SUPABASE_ERROR_MAP` table. -/
structure ErrorMapping where
  statusCode : Nat
  message : String
deriving DecidableEq

/-- The uniform envelope every facade operation returns (`ApiResponse<T>`). -/
structure ApiResponse (α : Type) where
  data : α
  success : Bool
  message : String
deriving DecidableEq

/-- The fixed error table `SUPABASE_ERROR_MAP` from `src/lib/api.ts`. -/
def SUPABASE_ERROR_MAP : List (String × ErrorMapping) :=
  [("23505", ⟨409, "A record with this information already exists."⟩),
   ("23503", ⟨400, "Referenced record does not exist."⟩),
   ("23502", ⟨400, "Required field is missing."⟩),
   ("23514", ⟨400, "Data validation failed."⟩),
   ("42501", ⟨403, "Access denied."⟩),
   ("42P01", ⟨500, "Database table not found."⟩),
   ("PGRST116", ⟨404, "Record not found."⟩),
   ("PGRST301", ⟨400, "Invalid request format."⟩),
   ("PGRST302", ⟨400, "Invalid query parameters."⟩),
   ("PGRST204", ⟨400, "Invalid range specified."⟩),
   ("PGRST103", ⟨400, "Invalid JSON format."⟩),
   ("ECONNREFUSED", ⟨503, "Unable to connect to database. Please try again later."⟩),
   ("ETIMEDOUT", ⟨504, "Request timed out. Please try again."⟩),
   ("ENOTFOUND", ⟨503, "Database service unavailable."⟩)]

/-- JS object-literal lookup `SUPABASE_ERROR_MAP[code]`: the mapping for a code,
or undefined when the code is unknown. -/
def lookupErrorMap (code : String) : Option ErrorMapping :=
  (SUPABASE_ERROR_MAP.find? (fun p => p.1 == code)).map (fun p => p.2)

namespace UserProfileAPI

/-- The read mapping `transformUser`: snake_case row to camelCase `User`,
with `col || ""` defaulting for the optional columns. -/
def transformUser (user : UserRow) : User :=
  { id := user.id
    fullName := user.full_name
    email := user.email
    phoneNumber := jsOrString user.phone_number ""
    bio := jsOrString user.bio ""
    avatarUrl := jsOrString user.avatar_url ""
    dateOfBirth := jsOrString user.date_of_birth ""
    location := jsOrString user.location ""
    createdAt := user.created_at
    updatedAt := user.updated_at }

/-- The centralized response helper `handleSupabaseResponse`: on error, looks
the code up in the fixed table, special-casing the uniqueness-violation code
23505 by sniffing "email" in the raw message; unknown codes fall back to a
generic per-context message; without an error it is a success envelope. -/
def handleSupabaseResponse {α : Type} (data : α) (error : Option PostgrestError)
    (successMessage : String) (context : String) : ApiResponse α :=
  match error with
  | some err =>
    match lookupErrorMap err.code with
    | some errorMapping =>
      if err.code == "23505" then
        if strIncludes err.message "email" then
          { data := data, success := false,
            message := "A user with this email address already exists. Please use a different email." }
        else
          { data := data, success := false,
            message := "This information already exists in the system. Please check your data." }
      else
        { data := data, success := false, message := errorMapping.message }
    | none =>
      { data := data, success := false,
        message := "Failed to complete " ++ context ++ ". Please try again." }
  | none => { data := data, success := true, message := successMessage }

/-- The catch-block helper `handleNetworkError`: code lookup first, then
substring heuristics on the thrown message, then a generic connectivity
message; the payload is always the caller-supplied fallback. -/
def handleNetworkError {α : Type} (error : Option JsError) (fallbackData : α) :
    ApiResponse α :=
  match error with
  | some e =>
    match (match e.code with
           | some c => lookupErrorMap c
           | none => none) with
    | some errorMapping =>
      { data := fallbackData, success := false, message := errorMapping.message }
    | none =>
      if strIncludes e.message "timeout" || strIncludes e.message "ETIMEDOUT" then
        { data := fallbackData, success := false,
          message := "Request timed out. Please check your connection and try again." }
      else if strIncludes e.message "fetch" || strIncludes e.message "network" then
        { data := fallbackData, success := false,
          message := "Network error. Please check your connection and try again." }
      else
        { data := fallbackData, success := false,
          message := "Network error. Please check your connection and try again." }
  | none =>
    { data := fallbackData, success := false,
      message := "Network error. Please check your connection and try again." }

/-- The snake_case insert payload built by `createUser`: required fields pass
through unchanged, optional fields map the empty string to null. -/
def insertDataOf (userData : UserFormData) : InsertData :=
  { full_name := userData.fullName
    email := userData.email
    phone_number := emptyToNull userData.phoneNumber
    bio := emptyToNull userData.bio
    avatar_url := emptyToNull userData.avatarUrl
    date_of_birth := emptyToNull userData.dateOfBirth
    location := emptyToNull userData.location }

/-- The snake_case update payload built by `updateUser`: a column appears iff
the corresponding form field is present (not undefined); optional columns
additionally map a present empty string to null. -/
def updateDataOf (userData : UserFormPatch) : UpdateData :=
  { full_name := userData.fullName
    email := userData.email
    phone_number :=
      match userData.phoneNumber with
      | none => none
      | some v => some (emptyToNull v)
    bio :=
      match userData.bio with
      | none => none
      | some v => some (emptyToNull v)
    avatar_url :=
      match userData.avatarUrl with
      | none => none
      | some v => some (emptyToNull v)
    date_of_birth :=
      match userData.dateOfBirth with
      | none => none
      | some v => some (emptyToNull v)
    location :=
      match userData.location with
      | none => none
      | some v => some (emptyToNull v) }

end UserProfileAPI

/-! ## The TTL cache (`SimpleCache` appended to `src/App.tsx`) -/

/-- A cache entry: value, creation timestamp, time-to-live (milliseconds). -/
structure CacheEntry (α : Type) where
  data : α
  timestamp : Int
  ttl : Int
deriving DecidableEq

/-- The backing JS `Map<string, CacheEntry>`, modelled as an insertion-ordered
association list without duplicate keys. -/
abbrev Cache (α : Type) := List (String × CacheEntry α)

/-- JS `Map.get`: the entry stored under a key, if any. -/
def jsMapGet (c : Cache α) (key : String) : Option (CacheEntry α) :=
  (c.find? (fun p => p.1 == key)).map (fun p => p.2)

/-- JS `Map.set`: updates an existing key in place, otherwise appends. -/
def jsMapSet (c : Cache α) (key : String) (e : CacheEntry α) : Cache α :=
  if c.any (fun p => p.1 == key) then
    c.map (fun p => if p.1 == key then (key, e) else p)
  else
    c ++ [(key, e)]

/-- JS `Map.delete` (ignoring its boolean result): removes the key. -/
def jsMapDelete (c : Cache α) (key : String) : Cache α :=
  c.filter (fun p => !(p.1 == key))

/-- The configured default time-to-live: 5 minutes in milliseconds. -/
def defaultTTL : Int := 5 * 60 * 1000

namespace SimpleCache

/-- `SimpleCache.set(key, data, ttl?)`: stores an entry stamped `now` whose
ttl is `ttl || defaultTTL` (so an omitted ttl, and also an explicit 0, fall
back to the default: 0 is falsy in JS). -/
def set (c : Cache α) (key : String) (data : α) (now : Int) (ttl : Option Int) :
    Cache α :=
  jsMapSet c key { data := data, timestamp := now, ttl := jsOrNum ttl defaultTTL }

/-- `SimpleCache.get(key)`: absent on a missing key; on an expired entry
(`now - timestamp > ttl`) deletes the entry and returns absent; otherwise
returns the stored value. Returns the possibly-updated cache as well. -/
def get (c : Cache α) (key : String) (now : Int) : Option α × Cache α :=
  match jsMapGet c key with
  | none => (none, c)
  | some entry =>
    if now - entry.timestamp > entry.ttl then
      (none, jsMapDelete c key)
    else
      (some entry.data, c)

/-- `SimpleCache.has(key)`: same expiry semantics as `get`, returning a flag. -/
def has (c : Cache α) (key : String) (now : Int) : Bool × Cache α :=
  match jsMapGet c key with
  | none => (false, c)
  | some entry =>
    if now - entry.timestamp > entry.ttl then
      (false, jsMapDelete c key)
    else
      (true, c)

/-- `SimpleCache.delete(key)`. -/
def delete (c : Cache α) (key : String) : Cache α :=
  jsMapDelete c key

/-- The `keys` component of `SimpleCache.getStats()`: a snapshot of the
currently stored keys, in insertion order. -/
def statsKeys (c : Cache α) : List String :=
  c.map (fun p => p.1)

end SimpleCache

/-! ## Cache key builders and invalidation helpers -/

namespace getCacheKey

/-- Cache key for `getAllUsers(page, limit)`. -/
def allUsers (page limit : Int) : String :=
  "users:all:" ++ toString page ++ ":" ++ toString limit

/-- Cache key for `searchUsers(query, page, limit)`. -/
def searchUsers (query : String) (page limit : Int) : String :=
  "users:search:" ++ query ++ ":" ++ toString page ++ ":" ++ toString limit

/-- Cache key for `getUserById(id)`. -/
def userById (id : String) : String :=
  "users:id:" ++ id

end getCacheKey

/-- One step of `invalidateCache.allUsers`: delete the key when it carries
the list or the search key pattern, keep the cache unchanged otherwise. -/
def invalidationStep (acc : Cache α) (key : String) : Cache α :=
  if strStarts key "users:all:" || strStarts key "users:search:" then
    jsMapDelete acc key
  else
    acc

namespace invalidateCache

/-- `invalidateCache.allUsers()`: walks a snapshot of the stored keys and
deletes every key carrying the list or the search pattern. -/
def allUsers (c : Cache α) : Cache α :=
  (SimpleCache.statsKeys c).foldl invalidationStep c

/-- `invalidateCache.userById(id)`: deletes the single per-id key. -/
def userById (id : String) (c : Cache α) : Cache α :=
  SimpleCache.delete c (getCacheKey.userById id)

end invalidateCache

/-! ## The facade operations

Each operation is embedded as a pure function of its arguments, the current
time, the backing-store outcome, and the cache state. A store call either
returns a structured `{ data, error }` pair (`Except.ok`) or throws
(`Except.error`, carrying the thrown value the catch block inspects). -/

/-- The `{ users, totalCount }` shape cached and returned by the list and
search operations. -/
structure ListResult where
  users : List User
  totalCount : Int
deriving DecidableEq

/-- The cache as instantiated by the application singleton `apiCache`. -/
abbrev UserCache := Cache ListResult

/-- Outcome of a store query returning many rows plus an exact count. -/
structure SelectManyResult where
  data : Option (List UserRow)
  error : Option PostgrestError
  count : Option Int
deriving DecidableEq

/-- Outcome of a store query returning a single row. -/
structure SelectOneResult where
  data : Option UserRow
  error : Option PostgrestError
deriving DecidableEq

/-- The placeholder record produced by the source's `{} as User` cast. -/
def emptyObjUser : User :=
  { id := "", fullName := "", email := "", phoneNumber := "", bio := ""
    avatarUrl := "", dateOfBirth := "", location := "", createdAt := ""
    updatedAt := "" }

namespace UserProfileAPI

/-- `getAllUsers(page, limit)`: cache check first; on a miss, the store
window query, transformation, a 3-minute cache fill on success, and the
normalized envelope; a thrown store call yields the network-error envelope
with an empty placeholder payload. -/
def getAllUsers (page limit : Int) (now : Int)
    (outcome : Except (Option JsError) SelectManyResult) (c : UserCache) :
    ApiResponse ListResult × UserCache :=
  let cacheKey := getCacheKey.allUsers page limit
  match SimpleCache.get c cacheKey now with
  | (some cachedResult, c1) =>
    ({ data := cachedResult, success := true,
       message := "Users retrieved from cache" }, c1)
  | (none, c1) =>
    match outcome with
    | .error e => (handleNetworkError e { users := [], totalCount := 0 }, c1)
    | .ok r =>
      let users := (jsOrRows r.data []).map transformUser
      let result : ListResult := { users := users, totalCount := jsOrNum r.count 0 }
      let c2 :=
        match r.error with
        | none => SimpleCache.set c1 cacheKey result now (some (3 * 60 * 1000))
        | some _ => c1
      (handleSupabaseResponse result r.error "Users retrieved successfully" "getAllUsers", c2)

/-- `getUserById(id)`: a single-row lookup; the response is the normalized
envelope over the store outcome. The cache is neither read nor written. -/
def getUserById (id : String) (outcome : Except (Option JsError) SelectOneResult) :
    ApiResponse (Option User) :=
  match outcome with
  | .error e => handleNetworkError e none
  | .ok r =>
    let user : Option User := r.data.map transformUser
    handleSupabaseResponse user r.error "User found" "getUserById"

/-- `createUser(userData)`: builds the insert payload, sends it, invalidates
the list/search cache entries on success, and returns the normalized
envelope (with the `{} as User` placeholder when no row came back). -/
def createUser (userData : UserFormData) (now : Int)
    (outcome : Except (Option JsError) SelectOneResult) (c : UserCache) :
    ApiResponse User × UserCache :=
  let _insertData := insertDataOf userData
  match outcome with
  | .error e => (handleNetworkError e emptyObjUser, c)
  | .ok r =>
    let newUser : User :=
      match r.data with
      | some row => transformUser row
      | none => emptyObjUser
    let c2 :=
      match r.error with
      | none => invalidateCache.allUsers c
      | some _ => c
    (handleSupabaseResponse newUser r.error "User created successfully" "createUser", c2)

/-- `updateUser(id, userData)`: builds the partial update payload, sends it,
invalidates the list/search entries and the per-id entry on success, and
returns the normalized envelope. -/
def updateUser (id : String) (userData : UserFormPatch) (now : Int)
    (outcome : Except (Option JsError) SelectOneResult) (c : UserCache) :
    ApiResponse User × UserCache :=
  let _updateData := updateDataOf userData
  match outcome with
  | .error e => (handleNetworkError e emptyObjUser, c)
  | .ok r =>
    let updatedUser : User :=
      match r.data with
      | some row => transformUser row
      | none => emptyObjUser
    let c2 :=
      match r.error with
      | none => invalidateCache.userById id (invalidateCache.allUsers c)
      | some _ => c
    (handleSupabaseResponse updatedUser r.error "User updated successfully" "updateUser", c2)

/-- `deleteUser(id)`: issues the delete, invalidates the list/search entries
and the per-id entry on success, and normalizes with a constant `true`
payload; the catch block supplies `false` as the fallback payload. -/
def deleteUser (id : String) (now : Int)
    (outcome : Except (Option JsError) (Option PostgrestError)) (c : UserCache) :
    ApiResponse Bool × UserCache :=
  match outcome with
  | .error e => (handleNetworkError e false, c)
  | .ok error =>
    let c2 :=
      match error with
      | none => invalidateCache.userById id (invalidateCache.allUsers c)
      | some _ => c
    (handleSupabaseResponse true error "User deleted successfully" "deleteUser", c2)

/-- `searchUsers(query, page, limit)`: normalizes the query text, checks the
cache, and on a miss issues the store query, fills the cache for 2 minutes on
success, and returns the normalized envelope. -/
def searchUsers (query : String) (page limit : Int) (now : Int)
    (outcome : Except (Option JsError) SelectManyResult) (c : UserCache) :
    ApiResponse ListResult × UserCache :=
  let normalizedQuery := query.toLower.trim
  let cacheKey := getCacheKey.searchUsers normalizedQuery page limit
  match SimpleCache.get c cacheKey now with
  | (some cachedResult, c1) =>
    ({ data := cachedResult, success := true,
       message := "Found " ++ toString cachedResult.totalCount ++ " users (cached)" }, c1)
  | (none, c1) =>
    match outcome with
    | .error e => (handleNetworkError e { users := [], totalCount := 0 }, c1)
    | .ok r =>
      let users := (jsOrRows r.data []).map transformUser
      let result : ListResult := { users := users, totalCount := jsOrNum r.count 0 }
      let c2 :=
        match r.error with
        | none => SimpleCache.set c1 cacheKey result now (some (2 * 60 * 1000))
        | some _ => c1
      (handleSupabaseResponse result r.error
        ("Found " ++ toString (jsOrNum r.count 0) ++ " users") "searchUsers", c2)

end UserProfileAPI

/-! ## Operation sequences over the cache

For the reachability claims the six facade operations are packaged as steps
of a transition system on the cache state; each step carries the call
arguments, the time of the call, and the store outcome. -/

/-- One facade call, with its store outcome. -/
inductive FacadeStep where
  | stepGetAll (page limit now : Int)
      (outcome : Except (Option JsError) SelectManyResult)
  | stepSearch (query : String) (page limit now : Int)
      (outcome : Except (Option JsError) SelectManyResult)
  | stepGetById (id : String)
      (outcome : Except (Option JsError) SelectOneResult)
  | stepCreate (userData : UserFormData) (now : Int)
      (outcome : Except (Option JsError) SelectOneResult)
  | stepUpdate (id : String) (userData : UserFormPatch) (now : Int)
      (outcome : Except (Option JsError) SelectOneResult)
  | stepDelete (id : String) (now : Int)
      (outcome : Except (Option JsError) (Option PostgrestError))

/-- The cache state after one facade call. `getUserById` never touches the
cache, so its step is the identity. -/
def applyStep (c : UserCache) : FacadeStep → UserCache
  | .stepGetAll page limit now outcome => (UserProfileAPI.getAllUsers page limit now outcome c).2
  | .stepSearch query page limit now outcome =>
      (UserProfileAPI.searchUsers query page limit now outcome c).2
  | .stepGetById _ _ => c
  | .stepCreate userData now outcome => (UserProfileAPI.createUser userData now outcome c).2
  | .stepUpdate id userData now outcome =>
      (UserProfileAPI.updateUser id userData now outcome c).2
  | .stepDelete id now outcome => (UserProfileAPI.deleteUser id now outcome c).2

/-- The cache state reached from the empty cache by a sequence of calls. -/
def runOps (ops : List FacadeStep) : UserCache :=
  ops.foldl applyStep []

/-! ## Specification-side predicates and concrete inputs used by the claims -/

/-- A key that a read-path operation may legitimately store: it carries the
list pattern or the search pattern. -/
def GoodKey (k : String) : Prop :=
  strStarts k "users:all:" = true ∨ strStarts k "users:search:" = true

/-- Every stored key of the cache is a read-path key. -/
def CacheGood (c : Cache α) : Prop :=
  ∀ k ∈ SimpleCache.statsKeys c, GoodKey k

/-- Glue for the round-trip law: a read `User` viewed as form data again
(the seven writable fields, dropping id and timestamps). -/
def formDataOfUser (u : User) : UserFormData :=
  { fullName := u.fullName, email := u.email, phoneNumber := u.phoneNumber
    bio := u.bio, avatarUrl := u.avatarUrl, dateOfBirth := u.dateOfBirth
    location := u.location }

/-- The round trip of the claim: read mapping (`transformUser`) followed by
the inverse write mapping (the snake_case insert-field construction). -/
def roundTripRow (row : UserRow) : InsertData :=
  UserProfileAPI.insertDataOf (formDataOfUser (UserProfileAPI.transformUser row))

/-- Round-trip behaviour of a null optional column: read as the empty
string, written back as null. -/
def NullRoundTrip (orig : Option String) (mid : String) (out : Option String) : Prop :=
  orig = none → mid = "" ∧ out = none

/-- Round-trip behaviour of a populated (non-null, non-empty) optional
column: reproduced exactly. -/
def ValueRoundTrip (orig : Option String) (out : Option String) : Prop :=
  ∀ v, v ≠ "" → orig = some v → out = some v

/-- The partial-update write policy for one optional field: absent fields
are not written, a present empty string clears (writes null), and any other
present value is written as given. -/
def FieldWritePolicy (inp : Option String) (out : Option (Option String)) : Prop :=
  (inp = none → out = none)
  ∧ (inp = some "" → out = some none)
  ∧ ∀ v, v ≠ "" → inp = some v → out = some (some v)

/-- A store row whose optional phone column holds the empty string (the
backing schema has no constraint ruling this out). -/
def emptyPhoneRow : UserRow :=
  { id := "row-1", full_name := "Ann Lee", email := "ann@example.com"
    phone_number := some "", bio := none, avatar_url := none
    date_of_birth := none, location := none
    created_at := "2024-01-01T00:00:00Z", updated_at := "2024-01-02T00:00:00Z" }

/-- A store row with a populated phone column and a null avatar column. -/
def fullRow : UserRow :=
  { id := "row-2", full_name := "Bob Stone", email := "bob@example.com"
    phone_number := some "+15550123", bio := some "hi", avatar_url := none
    date_of_birth := some "1990-01-01", location := some "Austin, TX"
    created_at := "2024-01-01T00:00:00Z", updated_at := "2024-01-02T00:00:00Z" }

/-- Concrete form data used by the witnesses. -/
def wUserData : UserFormData :=
  { fullName := "Ann Lee", email := "ann@example.com", phoneNumber := ""
    bio := "", avatarUrl := "", dateOfBirth := "", location := "" }

/-- A concrete partial update: sets the name, clears the phone, leaves the
rest untouched except a present avatar value. -/
def wPatch : UserFormPatch :=
  { fullName := some "New Name", email := none, phoneNumber := some ""
    bio := none, avatarUrl := some "http://a.example/p.png"
    dateOfBirth := none, location := none }

/-- A concrete cache state holding one list entry and one per-id entry. -/
def wCache : UserCache :=
  [(getCacheKey.allUsers 1 20,
    { data := { users := [], totalCount := 0 }, timestamp := 0, ttl := 180000 }),
   (getCacheKey.userById "7",
    { data := { users := [], totalCount := 1 }, timestamp := 0, ttl := 300000 })]

/-- The structured error Supabase returns when `.single()` matches no row. -/
def notFoundError : PostgrestError :=
  { code := "PGRST116"
    message := "JSON object requested, multiple (or no) rows returned"
    details := "The result contains 0 rows", hint := "" }

/-! ## Lemmas about the JS map primitives -/

theorem find?_jsMapSet_update (c : Cache α) (key : String) (e : CacheEntry α)
    (h : c.any (fun p => p.1 == key) = true) :
    (c.map (fun p => if p.1 == key then (key, e) else p)).find?
      (fun p => p.1 == key) = some (key, e) := by
  induction c with
  | nil => simp at h
  | cons a c ih =>
    simp only [List.map_cons]
    by_cases ha : (a.1 == key) = true
    · rw [if_pos ha]
      simp [List.find?_cons]
    · have ha' : (a.1 == key) = false := by simpa using ha
      have hc : c.any (fun p => p.1 == key) = true := by
        simpa [List.any_cons, ha'] using h
      rw [if_neg ha]
      simp only [List.find?_cons, ha']
      exact ih hc

theorem find?_append_of_none (c : Cache α) (key : String) (e : CacheEntry α)
    (h : c.any (fun p => p.1 == key) = false) :
    (c ++ [(key, e)]).find? (fun p => p.1 == key) = some (key, e) := by
  induction c with
  | nil => simp
  | cons a c ih =>
    have ha : (a.1 == key) = false := by
      by_contra hcon
      simp [List.any_cons, eq_true_of_ne_false hcon] at h
    have hc : c.any (fun p => p.1 == key) = false := by
      simpa [List.any_cons, ha] using h
    simp only [List.cons_append, List.find?_cons, ha]
    exact ih hc

theorem jsMapGet_jsMapSet_self (c : Cache α) (key : String) (e : CacheEntry α) :
    jsMapGet (jsMapSet c key e) key = some e := by
  unfold jsMapGet jsMapSet
  by_cases h : c.any (fun p => p.1 == key) = true
  · rw [if_pos h, find?_jsMapSet_update c key e h]
    rfl
  · have h' : c.any (fun p => p.1 == key) = false := by
      cases hx : c.any (fun p => p.1 == key)
      · rfl
      · exact absurd hx h
    rw [if_neg h, find?_append_of_none c key e h']
    rfl

theorem jsMapGet_eq_none_iff (c : Cache α) (key : String) :
    jsMapGet c key = none ↔ ∀ p ∈ c, ¬ ((p.1 == key) = true) := by
  unfold jsMapGet
  rw [Option.map_eq_none', List.find?_eq_none]

theorem jsMapGet_jsMapDelete_self (c : Cache α) (key : String) :
    jsMapGet (jsMapDelete c key) key = none := by
  rw [jsMapGet_eq_none_iff]
  intro p hp
  have h2 := (List.mem_filter.mp hp).2
  rw [Bool.not_eq_eq_eq_not, Bool.not_true] at h2
  simp [h2]

theorem jsMapGet_jsMapDelete_of_none (c : Cache α) (key other : String)
    (h : jsMapGet c key = none) : jsMapGet (jsMapDelete c other) key = none := by
  rw [jsMapGet_eq_none_iff] at h
  rw [jsMapGet_eq_none_iff]
  intro p hp
  exact h p (List.mem_filter.mp hp).1

theorem mem_statsKeys_of_get_some (c : Cache α) (key : String) (e : CacheEntry α)
    (h : jsMapGet c key = some e) : key ∈ SimpleCache.statsKeys c := by
  unfold jsMapGet at h
  rcases Option.map_eq_some'.mp h with ⟨p, hp, _⟩
  have hmem := List.mem_of_find?_eq_some hp
  have hpred := List.find?_some hp
  have hkey : p.1 = key := by simpa using hpred
  exact hkey ▸ List.mem_map_of_mem (fun q => q.1) hmem

theorem statsKeys_delete_sub (c : Cache α) (key other : String)
    (h : key ∈ SimpleCache.statsKeys (jsMapDelete c other)) :
    key ∈ SimpleCache.statsKeys c := by
  unfold SimpleCache.statsKeys at h ⊢
  rcases List.mem_map.mp h with ⟨p, hp, hk⟩
  exact hk ▸ List.mem_map_of_mem _ (List.mem_filter.mp hp).1

theorem not_mem_statsKeys_delete_self (c : Cache α) (key : String) :
    key ∉ SimpleCache.statsKeys (jsMapDelete c key) := by
  intro h
  rcases List.mem_map.mp h with ⟨p, hp, hk⟩
  have := (List.mem_filter.mp hp).2
  simp [hk] at this

theorem statsKeys_set_sub (c : Cache α) (key other : String) (e : CacheEntry α)
    (h : key ∈ SimpleCache.statsKeys (jsMapSet c other e)) :
    key = other ∨ key ∈ SimpleCache.statsKeys c := by
  unfold SimpleCache.statsKeys jsMapSet at h
  by_cases hany : c.any (fun p => p.1 == other) = true
  · rw [if_pos hany] at h
    rcases List.mem_map.mp h with ⟨p, hp, hk⟩
    rcases List.mem_map.mp hp with ⟨q, hq, hfq⟩
    by_cases hq1 : (q.1 == other) = true
    · rw [if_pos hq1] at hfq
      left
      rw [← hk, ← hfq]
    · rw [if_neg hq1] at hfq
      right
      subst hfq
      exact hk ▸ List.mem_map_of_mem (fun r => r.1) hq
  · rw [if_neg hany, List.map_append] at h
    rcases List.mem_append.mp h with h1 | h1
    · exact Or.inr h1
    · simp at h1
      exact Or.inl h1

/-! ## Lemmas about the key-pattern tests -/

theorem listStarts_iff (p l : List Char) :
    listStarts p l = true ↔ ∃ t, p ++ t = l := by
  induction p generalizing l with
  | nil => simp [listStarts]
  | cons a as ih =>
    cases l with
    | nil =>
      simp only [listStarts]
      constructor
      · intro h
        cases h
      · rintro ⟨t, ht⟩
        cases ht
    | cons b bs =>
      simp only [listStarts, Bool.and_eq_true, beq_iff_eq, ih, List.cons_append,
        List.cons.injEq]
      constructor
      · rintro ⟨hab, t, ht⟩
        exact ⟨t, hab, ht⟩
      · rintro ⟨t, hab, ht⟩
        exact ⟨hab, t, ht⟩

theorem strStarts_key_allUsers (page limit : Int) :
    strStarts (getCacheKey.allUsers page limit) "users:all:" = true := by
  unfold strStarts getCacheKey.allUsers
  refine (listStarts_iff _ _).mpr
    ⟨(toString page).toList ++ (":".toList ++ (toString limit).toList), ?_⟩
  simp [String.data_append, List.append_assoc]

theorem strStarts_key_searchUsers (query : String) (page limit : Int) :
    strStarts (getCacheKey.searchUsers query page limit) "users:search:" = true := by
  unfold strStarts getCacheKey.searchUsers
  refine (listStarts_iff _ _).mpr
    ⟨query.toList ++ (":".toList ++ ((toString page).toList
      ++ (":".toList ++ (toString limit).toList))), ?_⟩
  simp [String.data_append, List.append_assoc]

/-- A key carrying the list or the search pattern cannot also carry the
per-id pattern: the two patterns disagree at character position 6. -/
theorem strStarts_id_exclusive (k : String)
    (h : strStarts k "users:all:" = true ∨ strStarts k "users:search:" = true) :
    strStarts k "users:id:" = false := by
  cases hid : strStarts k "users:id:"
  · rfl
  · obtain ⟨t2, e2⟩ := (listStarts_iff _ _).mp hid
    cases h with
    | inl h1 =>
      obtain ⟨t1, e1⟩ := (listStarts_iff _ _).mp h1
      have e := e1.trans e2.symm
      have h7 : (['u', 's', 'e', 'r', 's', ':', 'a'] : List Char)
          = ['u', 's', 'e', 'r', 's', ':', 'i'] := congrArg (List.take 7) e
      exact absurd h7 (by decide)
    | inr h1 =>
      obtain ⟨t1, e1⟩ := (listStarts_iff _ _).mp h1
      have e := e1.trans e2.symm
      have h7 : (['u', 's', 'e', 'r', 's', ':', 's'] : List Char)
          = ['u', 's', 'e', 'r', 's', ':', 'i'] := congrArg (List.take 7) e
      exact absurd h7 (by decide)

/-! ## Lemmas about cache invalidation -/

theorem foldl_invStep_get_none (L : List String) :
    ∀ (c : Cache α) (k : String), jsMapGet c k = none →
      jsMapGet (L.foldl invalidationStep c) k = none := by
  induction L with
  | nil => intro c k h; exact h
  | cons key L ih =>
    intro c k h
    simp only [List.foldl_cons]
    apply ih
    unfold invalidationStep
    split
    · exact jsMapGet_jsMapDelete_of_none c k key h
    · exact h

theorem foldl_invStep_get_zap (L : List String) :
    ∀ (c : Cache α) (k : String),
      (strStarts k "users:all:" || strStarts k "users:search:") = true →
      k ∈ L → jsMapGet (L.foldl invalidationStep c) k = none := by
  induction L with
  | nil => intro c k _ hmem; cases hmem
  | cons key L ih =>
    intro c k hk hmem
    simp only [List.foldl_cons]
    rcases List.mem_cons.mp hmem with h | h
    · subst h
      apply foldl_invStep_get_none
      unfold invalidationStep
      rw [if_pos hk]
      exact jsMapGet_jsMapDelete_self c k
    · exact ih _ _ hk h

/-- After `invalidateCache.allUsers`, every key with the list or the search
pattern misses. -/
theorem invalidateAllUsers_get_none (c : Cache α) (k : String)
    (hk : (strStarts k "users:all:" || strStarts k "users:search:") = true) :
    jsMapGet (invalidateCache.allUsers c) k = none := by
  unfold invalidateCache.allUsers
  cases hg : jsMapGet c k with
  | none => exact foldl_invStep_get_none _ _ _ hg
  | some e =>
    exact foldl_invStep_get_zap _ _ _ hk (mem_statsKeys_of_get_some c k e hg)

theorem statsKeys_foldl_invStep_sub (L : List String) :
    ∀ (c : Cache α) (k : String),
      k ∈ SimpleCache.statsKeys (L.foldl invalidationStep c) →
      k ∈ SimpleCache.statsKeys c := by
  induction L with
  | nil => intro c k h; exact h
  | cons key L ih =>
    intro c k h
    simp only [List.foldl_cons] at h
    have h2 := ih _ _ h
    unfold invalidationStep at h2
    split at h2
    · exact statsKeys_delete_sub c k key h2
    · exact h2

/-- A `SimpleCache.get` call misses whenever the backing map has no entry. -/
theorem cacheGet_fst_none (c : Cache α) (k : String) (now : Int)
    (h : jsMapGet c k = none) : (SimpleCache.get c k now).1 = none := by
  unfold SimpleCache.get
  rw [h]

/-- Behaviour of `get`, `has` and the key snapshot on a stored entry, as a
function of its age: the value comes back iff the entry is not yet expired,
and an expired entry is removed by the access that found it expired. -/
theorem cacheGet_entry_spec (c : Cache α) (k : String) (v : α) (t0 T now : Int)
    (h : jsMapGet c k = some ⟨v, t0, T⟩) :
    ((SimpleCache.get c k now).1 = some v ↔ now - t0 ≤ T)
    ∧ (now - t0 > T →
        (SimpleCache.get c k now).1 = none
        ∧ (SimpleCache.has c k now).1 = false
        ∧ k ∉ SimpleCache.statsKeys (SimpleCache.get c k now).2
        ∧ k ∉ SimpleCache.statsKeys (SimpleCache.has c k now).2) := by
  unfold SimpleCache.get SimpleCache.has
  rw [h]
  by_cases ht : now - t0 > T
  · have ht' : ¬ now - t0 ≤ T := by omega
    simp [if_pos ht, ht', not_mem_statsKeys_delete_self]
  · have ht' : now - t0 ≤ T := by omega
    simp [if_neg ht, ht', ht]

/-! ## The reachable-cache invariant -/

theorem cacheGood_nil : CacheGood ([] : Cache α) := by
  intro k hk
  cases hk

theorem cacheGood_delete (c : Cache α) (key : String) (h : CacheGood c) :
    CacheGood (jsMapDelete c key) := by
  intro k hk
  exact h k (statsKeys_delete_sub c k key hk)

theorem cacheGood_invalidateAllUsers (c : Cache α) (h : CacheGood c) :
    CacheGood (invalidateCache.allUsers c) := by
  intro k hk
  exact h k (statsKeys_foldl_invStep_sub _ _ _ hk)

theorem cacheGood_set (c : Cache α) (key : String) (e : CacheEntry α)
    (hkey : GoodKey key) (h : CacheGood c) : CacheGood (jsMapSet c key e) := by
  intro k hk
  rcases statsKeys_set_sub c k key e hk with h1 | h1
  · exact h1 ▸ hkey
  · exact h k h1

theorem cacheGood_get_snd (c : Cache α) (key : String) (now : Int)
    (h : CacheGood c) : CacheGood (SimpleCache.get c key now).2 := by
  unfold SimpleCache.get
  cases hj : jsMapGet c key with
  | none => exact h
  | some e =>
    by_cases ht : now - e.timestamp > e.ttl
    · simp only [if_pos ht]
      exact cacheGood_delete c key h
    · simp only [if_neg ht]
      exact h

theorem goodKey_allUsers (page limit : Int) :
    GoodKey (getCacheKey.allUsers page limit) :=
  Or.inl (strStarts_key_allUsers page limit)

theorem goodKey_searchUsers (query : String) (page limit : Int) :
    GoodKey (getCacheKey.searchUsers query page limit) :=
  Or.inr (strStarts_key_searchUsers query page limit)

/-- A cache all of whose keys are read-path keys has no per-id entry. -/
theorem cacheGood_no_id_key (c : Cache α) (h : CacheGood c) (k : String)
    (hk : strStarts k "users:id:" = true) : jsMapGet c k = none := by
  cases hg : jsMapGet c k with
  | none => rfl
  | some e =>
    have hmem := mem_statsKeys_of_get_some c k e hg
    have hgood := h k hmem
    have := strStarts_id_exclusive k hgood
    rw [hk] at this
    cases this

/-- Every facade call preserves the reachable-cache invariant. -/
theorem cacheGood_applyStep (c : UserCache) (s : FacadeStep) (h : CacheGood c) :
    CacheGood (applyStep c s) := by
  cases s with
  | stepGetAll page limit now outcome =>
    rcases hg : SimpleCache.get c (getCacheKey.allUsers page limit) now with ⟨v, c1⟩
    have hc1 : CacheGood c1 := by
      have hgood := cacheGood_get_snd c (getCacheKey.allUsers page limit) now h
      rw [hg] at hgood
      exact hgood
    cases v with
    | some cached => simpa [applyStep, UserProfileAPI.getAllUsers, hg] using hc1
    | none =>
      cases outcome with
      | error e => simpa [applyStep, UserProfileAPI.getAllUsers, hg] using hc1
      | ok r =>
        cases herr : r.error with
        | none =>
          simp only [applyStep, UserProfileAPI.getAllUsers, hg, herr]
          exact cacheGood_set _ _ _ (goodKey_allUsers page limit) hc1
        | some pe => simpa [applyStep, UserProfileAPI.getAllUsers, hg, herr] using hc1
  | stepSearch query page limit now outcome =>
    rcases hg : SimpleCache.get c (getCacheKey.searchUsers query.toLower.trim page limit) now
      with ⟨v, c1⟩
    have hc1 : CacheGood c1 := by
      have hgood := cacheGood_get_snd c
        (getCacheKey.searchUsers query.toLower.trim page limit) now h
      rw [hg] at hgood
      exact hgood
    cases v with
    | some cached => simpa [applyStep, UserProfileAPI.searchUsers, hg] using hc1
    | none =>
      cases outcome with
      | error e => simpa [applyStep, UserProfileAPI.searchUsers, hg] using hc1
      | ok r =>
        cases herr : r.error with
        | none =>
          simp only [applyStep, UserProfileAPI.searchUsers, hg, herr]
          exact cacheGood_set _ _ _ (goodKey_searchUsers query.toLower.trim page limit) hc1
        | some pe => simpa [applyStep, UserProfileAPI.searchUsers, hg, herr] using hc1
  | stepGetById id outcome => exact h
  | stepCreate userData now outcome =>
    cases outcome with
    | error e => simpa [applyStep, UserProfileAPI.createUser] using h
    | ok r =>
      cases herr : r.error with
      | none =>
        simp only [applyStep, UserProfileAPI.createUser, herr]
        exact cacheGood_invalidateAllUsers c h
      | some pe => simpa [applyStep, UserProfileAPI.createUser, herr] using h
  | stepUpdate id userData now outcome =>
    cases outcome with
    | error e => simpa [applyStep, UserProfileAPI.updateUser] using h
    | ok r =>
      cases herr : r.error with
      | none =>
        simp only [applyStep, UserProfileAPI.updateUser, herr]
        exact cacheGood_delete _ _ (cacheGood_invalidateAllUsers c h)
      | some pe => simpa [applyStep, UserProfileAPI.updateUser, herr] using h
  | stepDelete id now outcome =>
    cases outcome with
    | error e => simpa [applyStep, UserProfileAPI.deleteUser] using h
    | ok error =>
      cases herr : error with
      | none =>
        simp only [applyStep, UserProfileAPI.deleteUser, herr]
        exact cacheGood_delete _ _ (cacheGood_invalidateAllUsers c h)
      | some pe => simpa [applyStep, UserProfileAPI.deleteUser, herr] using h

theorem cacheGood_foldl (ops : List FacadeStep) :
    ∀ c : UserCache, CacheGood c → CacheGood (ops.foldl applyStep c) := by
  induction ops with
  | nil => intro c h; exact h
  | cons s ops ih =>
    intro c h
    simp only [List.foldl_cons]
    exact ih _ (cacheGood_applyStep c s h)

/-- Every cache state reachable from the empty cache satisfies the
invariant. -/
theorem cacheGood_runOps (ops : List FacadeStep) : CacheGood (runOps ops) :=
  cacheGood_foldl ops [] cacheGood_nil

/-! ## Lemmas about the response normalizer -/

/-- On any structured store error the normalized envelope keeps the supplied
payload and reports failure, in every branch of the classification. -/
theorem handleSupabaseResponse_error_spec {α : Type} (data : α) (err : PostgrestError)
    (successMessage context : String) :
    (UserProfileAPI.handleSupabaseResponse data (some err) successMessage context).data = data
    ∧ (UserProfileAPI.handleSupabaseResponse data (some err) successMessage context).success
        = false := by
  unfold UserProfileAPI.handleSupabaseResponse
  cases hl : lookupErrorMap err.code with
  | none => simp [hl]
  | some m =>
    by_cases h1 : (err.code == "23505") = true
    · by_cases h2 : strIncludes err.message "email" = true
      · simp [hl, h1, h2]
      · simp [hl, h1, h2]
    · simp [hl, h1]

/-- On any thrown store call the network-error envelope carries exactly the
fallback payload and reports failure, in every branch of the heuristics. -/
theorem handleNetworkError_spec {α : Type} (error : Option JsError) (fallbackData : α) :
    (UserProfileAPI.handleNetworkError error fallbackData).data = fallbackData
    ∧ (UserProfileAPI.handleNetworkError error fallbackData).success = false := by
  unfold UserProfileAPI.handleNetworkError
  cases error with
  | none => exact ⟨rfl, rfl⟩
  | some e =>
    cases hl : (match e.code with
                | some c => lookupErrorMap c
                | none => none) with
    | some m => simp [hl]
    | none =>
      by_cases h1 :
          (strIncludes e.message "timeout" || strIncludes e.message "ETIMEDOUT") = true
      · simp [hl, h1]
      · by_cases h2 :
            (strIncludes e.message "fetch" || strIncludes e.message "network") = true
        · simp [hl, h1, h2]
        · simp [hl, h1, h2]

/-- One optional column through read-default and write-elision. -/
theorem round_field_spec (x : Option String) :
    NullRoundTrip x (jsOrString x "") (emptyToNull (jsOrString x ""))
    ∧ ValueRoundTrip x (emptyToNull (jsOrString x "")) := by
  constructor
  · intro hx
    subst hx
    exact ⟨rfl, rfl⟩
  · intro v hv hx
    subst hx
    simp [jsOrString, emptyToNull, hv]

/-- One optional field through the conditional update-payload construction. -/
theorem field_write_policy_spec (x : Option String) :
    FieldWritePolicy x
      (match x with
       | none => none
       | some v => some (emptyToNull v)) := by
  refine ⟨?_, ?_, ?_⟩
  · intro h
    subst h
    rfl
  · intro h
    subst h
    rfl
  · intro v hv h
    subst h
    simp [emptyToNull, hv]

/-! ## The claims -/

/-- Claim C3 (confirmed): for every entry stored in the cache under key `k`
at time `t0` with time-to-live `ttl`, `get` at time `now` returns the stored
value iff `now - t0 ≤ ttl`; once `now - t0 > ttl`, `get` returns absent,
`has` returns false, and that access removes the key from the cache's key
set. -/
theorem cache_ttl_semantics (α : Type) (c : Cache α) (k : String) (v : α)
    (t0 ttl now : Int) (h : jsMapGet c k = some ⟨v, t0, ttl⟩) :
    ((SimpleCache.get c k now).1 = some v ↔ now - t0 ≤ ttl)
    ∧ (now - t0 > ttl →
        (SimpleCache.get c k now).1 = none
        ∧ (SimpleCache.has c k now).1 = false
        ∧ k ∉ SimpleCache.statsKeys (SimpleCache.get c k now).2
        ∧ k ∉ SimpleCache.statsKeys (SimpleCache.has c k now).2) :=
  cacheGet_entry_spec c k v t0 ttl now h

/-- Witness for C3 at a concrete single-entry cache. -/
theorem cache_ttl_semantics_witness :
    jsMapGet [("k", (⟨37, 0, 10⟩ : CacheEntry Nat))] "k" = some ⟨37, 0, 10⟩
    ∧ (((SimpleCache.get [("k", (⟨37, 0, 10⟩ : CacheEntry Nat))] "k" 20).1 = some 37
          ↔ (20 : Int) - 0 ≤ 10)
        ∧ ((20 : Int) - 0 > 10 →
            (SimpleCache.get [("k", (⟨37, 0, 10⟩ : CacheEntry Nat))] "k" 20).1 = none
            ∧ (SimpleCache.has [("k", (⟨37, 0, 10⟩ : CacheEntry Nat))] "k" 20).1 = false
            ∧ "k" ∉ SimpleCache.statsKeys
                (SimpleCache.get [("k", (⟨37, 0, 10⟩ : CacheEntry Nat))] "k" 20).2
            ∧ "k" ∉ SimpleCache.statsKeys
                (SimpleCache.has [("k", (⟨37, 0, 10⟩ : CacheEntry Nat))] "k" 20).2)) :=
  ⟨by decide, cache_ttl_semantics Nat [("k", ⟨37, 0, 10⟩)] "k" 37 0 10 20 (by decide)⟩

/-- Claim C4 as stated is false: `set(k, v, 0)` does not produce an entry
that expires at exactly 0. The stored ttl is the 5-minute default (0 is
falsy in `ttl || defaultTTL`), and `get` still returns the value at
`now = 1` even though `now - t0 > 0`. -/
theorem cache_set_zero_ttl_cex :
    jsMapGet (SimpleCache.set ([] : Cache Nat) "k" 7 0 (some 0)) "k"
      = some ⟨7, 0, defaultTTL⟩
    ∧ (SimpleCache.get (SimpleCache.set ([] : Cache Nat) "k" 7 0 (some 0)) "k" 1).1 = some 7
    ∧ ((1 : Int) - 0 > 0) := by
  decide

/-- Claim C4 (amended): `set(k, v)` with the ttl omitted stores the 5-minute
default and expires at exactly that default; `set(k, v, t)` with `t ≠ 0`
stores and expires at exactly `t`; `set(k, v, 0)` falls back to the default
because 0 is falsy. -/
theorem cache_set_ttl_semantics (α : Type) (c : Cache α) (k : String) (v : α)
    (t0 t now : Int) :
    jsMapGet (SimpleCache.set c k v t0 none) k = some ⟨v, t0, defaultTTL⟩
    ∧ jsMapGet (SimpleCache.set c k v t0 (some 0)) k = some ⟨v, t0, defaultTTL⟩
    ∧ (t ≠ 0 →
        jsMapGet (SimpleCache.set c k v t0 (some t)) k = some ⟨v, t0, t⟩
        ∧ ((SimpleCache.get (SimpleCache.set c k v t0 (some t)) k now).1 = some v
            ↔ now - t0 ≤ t))
    ∧ ((SimpleCache.get (SimpleCache.set c k v t0 none) k now).1 = some v
        ↔ now - t0 ≤ defaultTTL) := by
  have hnone : jsMapGet (SimpleCache.set c k v t0 none) k = some ⟨v, t0, defaultTTL⟩ :=
    jsMapGet_jsMapSet_self c k _
  have hzero : jsMapGet (SimpleCache.set c k v t0 (some 0)) k = some ⟨v, t0, defaultTTL⟩ :=
    jsMapGet_jsMapSet_self c k _
  refine ⟨hnone, hzero, ?_, (cacheGet_entry_spec _ _ _ _ _ now hnone).1⟩
  intro ht
  have he : jsOrNum (some t) defaultTTL = t := by
    simp [jsOrNum, ht]
  have hset : jsMapGet (SimpleCache.set c k v t0 (some t)) k = some ⟨v, t0, t⟩ := by
    show jsMapGet (jsMapSet c k ⟨v, t0, jsOrNum (some t) defaultTTL⟩) k = some ⟨v, t0, t⟩
    rw [he]
    exact jsMapGet_jsMapSet_self c k _
  exact ⟨hset, (cacheGet_entry_spec _ _ _ _ _ now hset).1⟩

/-- Witness for the amended C4 at `t = 100`. -/
theorem cache_set_ttl_semantics_witness :
    (100 : Int) ≠ 0
    ∧ (jsMapGet (SimpleCache.set ([] : Cache Nat) "k" 5 0 (some 100)) "k"
          = some ⟨5, 0, 100⟩
        ∧ ((SimpleCache.get (SimpleCache.set ([] : Cache Nat) "k" 5 0 (some 100)) "k" 50).1
              = some 5 ↔ (50 : Int) - 0 ≤ 100)) :=
  ⟨by decide, (cache_set_ttl_semantics Nat [] "k" 5 0 100 50).2.2.1 (by decide)⟩

/-- Claim C9 (confirmed): when the store returns a structured error object,
`deleteUser` reports failure but its boolean payload is `true`; the payload
is `false` exactly on the thrown (network) path, where the catch block
supplies the fallback. -/
theorem deleteUser_error_payload (id : String) (now : Int) (e : PostgrestError)
    (jsErr : Option JsError) (c : UserCache) :
    ((UserProfileAPI.deleteUser id now (.ok (some e)) c).1.data = true
      ∧ (UserProfileAPI.deleteUser id now (.ok (some e)) c).1.success = false)
    ∧ ((UserProfileAPI.deleteUser id now (.error jsErr) c).1.data = false
      ∧ (UserProfileAPI.deleteUser id now (.error jsErr) c).1.success = false) := by
  constructor
  · have hs := handleSupabaseResponse_error_spec true e "User deleted successfully" "deleteUser"
    exact ⟨hs.1, hs.2⟩
  · have hn := handleNetworkError_spec jsErr false
    exact ⟨hn.1, hn.2⟩

/-- Claim C1 as stated is false: on the not-found condition (the store
answers the single-row lookup with a null row and the PGRST116 error),
`getUserById` does not return a success envelope with an absent payload; it
returns a failure envelope (`success = false`, message "Record not found."),
because PGRST116 sits in the error table like any other error code. -/
theorem getUserById_notFound_cex :
    (UserProfileAPI.getUserById "u1" (.ok ⟨none, some notFoundError⟩)).success = false
    ∧ UserProfileAPI.getUserById "u1" (.ok ⟨none, some notFoundError⟩)
        = ⟨none, false, "Record not found."⟩ := by
  decide

/-- Claim C1 (amended): on the not-found condition `getUserById` returns a
failure envelope whose payload is the absent value and whose message is the
mapped "Record not found." text, for every raw message the store attaches to
the PGRST116 error. -/
theorem getUserById_notFound_envelope (id msg det hint : String) :
    UserProfileAPI.getUserById id (.ok ⟨none, some ⟨"PGRST116", msg, det, hint⟩⟩)
      = ⟨none, false, "Record not found."⟩ := by
  rfl

/-- Claim C5 as stated is false: the empty string is a non-null value of an
optional column that the read/write round trip does not reproduce — it is
read as the empty string and written back as null. -/
theorem round_trip_empty_string_cex :
    emptyPhoneRow.phone_number = some ""
    ∧ (roundTripRow emptyPhoneRow).phone_number = none
    ∧ (roundTripRow emptyPhoneRow).phone_number ≠ emptyPhoneRow.phone_number := by
  decide

/-- Claim C5 (amended): the round trip reproduces the required columns
exactly and every non-null, non-empty optional column exactly, and a null
optional column round-trips null → "" → null; the empty-string optional
column (the counterexample) is the only non-null value not reproduced. -/
theorem round_trip_mapping (row : UserRow) :
    (roundTripRow row).full_name = row.full_name
    ∧ (roundTripRow row).email = row.email
    ∧ (NullRoundTrip row.phone_number (UserProfileAPI.transformUser row).phoneNumber
        (roundTripRow row).phone_number
       ∧ ValueRoundTrip row.phone_number (roundTripRow row).phone_number)
    ∧ (NullRoundTrip row.bio (UserProfileAPI.transformUser row).bio
        (roundTripRow row).bio
       ∧ ValueRoundTrip row.bio (roundTripRow row).bio)
    ∧ (NullRoundTrip row.avatar_url (UserProfileAPI.transformUser row).avatarUrl
        (roundTripRow row).avatar_url
       ∧ ValueRoundTrip row.avatar_url (roundTripRow row).avatar_url)
    ∧ (NullRoundTrip row.date_of_birth (UserProfileAPI.transformUser row).dateOfBirth
        (roundTripRow row).date_of_birth
       ∧ ValueRoundTrip row.date_of_birth (roundTripRow row).date_of_birth)
    ∧ (NullRoundTrip row.location (UserProfileAPI.transformUser row).location
        (roundTripRow row).location
       ∧ ValueRoundTrip row.location (roundTripRow row).location) :=
  ⟨rfl, rfl, round_field_spec _, round_field_spec _, round_field_spec _,
   round_field_spec _, round_field_spec _⟩

/-- Witness for the amended C5: a populated phone column survives the round
trip, a null avatar column comes back as null after being read as "". -/
theorem round_trip_mapping_witness :
    (("+15550123" : String) ≠ "" ∧ fullRow.phone_number = some "+15550123"
      ∧ (roundTripRow fullRow).phone_number = some "+15550123")
    ∧ (fullRow.avatar_url = none
      ∧ (UserProfileAPI.transformUser fullRow).avatarUrl = ""
      ∧ (roundTripRow fullRow).avatar_url = none) :=
  ⟨⟨by decide, rfl,
    (round_trip_mapping fullRow).2.2.1.2 "+15550123" (by decide) rfl⟩,
   ⟨rfl, ((round_trip_mapping fullRow).2.2.2.2.1.1 rfl).1,
    ((round_trip_mapping fullRow).2.2.2.2.1.1 rfl).2⟩⟩

/-- Claim C6 (confirmed): a store error with the uniqueness-violation code
23505 is classified by whether its raw message contains "email": with it the
email-specific conflict message is returned, without it the generic
duplicate-data conflict message, in both cases a failure envelope carrying
the supplied payload. -/
theorem duplicate_code_classification (α : Type) (data : α) (err : PostgrestError)
    (successMessage context : String) (h : err.code = "23505") :
    UserProfileAPI.handleSupabaseResponse data (some err) successMessage context =
      (if strIncludes err.message "email" = true then
        ⟨data, false,
          "A user with this email address already exists. Please use a different email."⟩
      else
        ⟨data, false,
          "This information already exists in the system. Please check your data."⟩) := by
  rcases err with ⟨code, msg, det, hint⟩
  simp only at h
  subst h
  rfl

/-- Witness for C6 on a realistic unique-constraint message. -/
theorem duplicate_code_classification_witness :
    (⟨"23505", "duplicate key value violates unique constraint users_email_key",
      "", ""⟩ : PostgrestError).code = "23505"
    ∧ UserProfileAPI.handleSupabaseResponse (0 : Nat)
        (some ⟨"23505", "duplicate key value violates unique constraint users_email_key",
          "", ""⟩) "ok" "createUser" =
      (if strIncludes "duplicate key value violates unique constraint users_email_key"
          "email" = true then
        ⟨0, false,
          "A user with this email address already exists. Please use a different email."⟩
      else
        ⟨0, false,
          "This information already exists in the system. Please check your data."⟩) :=
  ⟨rfl, duplicate_code_classification Nat 0
    ⟨"23505", "duplicate key value violates unique constraint users_email_key", "", ""⟩
    "ok" "createUser" rfl⟩

/-- Claim C7 (confirmed): the update payload contains exactly the snake_case
images of the fields present in the partial input — an absent field is not
written, the required fields pass through as given, and a present optional
field is written with its value, the empty string becoming null (clear). -/
theorem update_payload_fields (p : UserFormPatch) :
    (UserProfileAPI.updateDataOf p).full_name = p.fullName
    ∧ (UserProfileAPI.updateDataOf p).email = p.email
    ∧ FieldWritePolicy p.phoneNumber (UserProfileAPI.updateDataOf p).phone_number
    ∧ FieldWritePolicy p.bio (UserProfileAPI.updateDataOf p).bio
    ∧ FieldWritePolicy p.avatarUrl (UserProfileAPI.updateDataOf p).avatar_url
    ∧ FieldWritePolicy p.dateOfBirth (UserProfileAPI.updateDataOf p).date_of_birth
    ∧ FieldWritePolicy p.location (UserProfileAPI.updateDataOf p).location :=
  ⟨rfl, rfl, field_write_policy_spec _, field_write_policy_spec _,
   field_write_policy_spec _, field_write_policy_spec _, field_write_policy_spec _⟩

/-- Witness for C7 on a concrete partial update: present name written as
given, present empty phone written as null, absent bio not written, present
avatar written with its value. -/
theorem update_payload_fields_witness :
    (UserProfileAPI.updateDataOf wPatch).full_name = some "New Name"
    ∧ (UserProfileAPI.updateDataOf wPatch).phone_number = some none
    ∧ (UserProfileAPI.updateDataOf wPatch).bio = none
    ∧ (UserProfileAPI.updateDataOf wPatch).avatar_url
        = some (some "http://a.example/p.png") :=
  ⟨(update_payload_fields wPatch).1,
   (update_payload_fields wPatch).2.2.1.2.1 rfl,
   (update_payload_fields wPatch).2.2.2.1.1 rfl,
   (update_payload_fields wPatch).2.2.2.2.1.2.2 "http://a.example/p.png" (by decide) rfl⟩

/-- Claim C2 (confirmed): after a successful `createUser`, `updateUser` or
`deleteUser`, every cache key carrying the list pattern or the search
pattern misses on a subsequent `get`, and after a successful `updateUser` or
`deleteUser` of `id` the per-id key misses as well. -/
theorem mutation_cache_invalidation (c : UserCache) (k id : String)
    (now now2 : Int) (userData : UserFormData) (patch : UserFormPatch)
    (row : Option UserRow) :
    ((strStarts k "users:all:" = true ∨ strStarts k "users:search:" = true) →
      (SimpleCache.get (UserProfileAPI.createUser userData now (.ok ⟨row, none⟩) c).2
        k now2).1 = none
      ∧ (SimpleCache.get (UserProfileAPI.updateUser id patch now (.ok ⟨row, none⟩) c).2
          k now2).1 = none
      ∧ (SimpleCache.get (UserProfileAPI.deleteUser id now (.ok none) c).2
          k now2).1 = none)
    ∧ (SimpleCache.get (UserProfileAPI.updateUser id patch now (.ok ⟨row, none⟩) c).2
        (getCacheKey.userById id) now2).1 = none
    ∧ (SimpleCache.get (UserProfileAPI.deleteUser id now (.ok none) c).2
        (getCacheKey.userById id) now2).1 = none := by
  constructor
  · intro h
    have hbool : (strStarts k "users:all:" || strStarts k "users:search:") = true := by
      rcases h with h | h <;> simp [h]
    have hinv := invalidateAllUsers_get_none c k hbool
    exact ⟨cacheGet_fst_none _ _ _ hinv,
      cacheGet_fst_none _ _ _ (jsMapGet_jsMapDelete_of_none _ _ _ hinv),
      cacheGet_fst_none _ _ _ (jsMapGet_jsMapDelete_of_none _ _ _ hinv)⟩
  · exact ⟨cacheGet_fst_none _ _ _ (jsMapGet_jsMapDelete_self _ _),
      cacheGet_fst_none _ _ _ (jsMapGet_jsMapDelete_self _ _)⟩

/-- Witness for C2: a stored list entry misses after a successful create on
a concrete cache. -/
theorem mutation_cache_invalidation_witness :
    (strStarts (getCacheKey.allUsers 1 20) "users:all:" = true
      ∨ strStarts (getCacheKey.allUsers 1 20) "users:search:" = true)
    ∧ (SimpleCache.get
        (UserProfileAPI.createUser wUserData 0 (.ok ⟨none, none⟩) wCache).2
        (getCacheKey.allUsers 1 20) 5).1 = none :=
  ⟨Or.inl (by decide),
   ((mutation_cache_invalidation wCache (getCacheKey.allUsers 1 20) "7" 0 5
      wUserData wPatch none).1 (Or.inl (by decide))).1⟩

/-- Claim C8 (confirmed): a store error whose code is absent from the fixed
error table is normalized, for every facade operation, to a failure envelope
whose message is the fixed per-operation retry text. The message is a
constant determined by the operation alone, so no part of the raw error
(in particular its message text) reaches the envelope. -/
theorem unknown_code_generic_envelope (α : Type) (data : α) (err : PostgrestError)
    (successMessage context : String) (c : UserCache) (id query : String)
    (fd : UserFormData) (patch : UserFormPatch) (row : Option UserRow)
    (rows : Option (List UserRow)) (cnt : Option Int) (page limit now : Int)
    (h : lookupErrorMap err.code = none) :
    UserProfileAPI.handleSupabaseResponse data (some err) successMessage context
      = ⟨data, false, "Failed to complete " ++ context ++ ". Please try again."⟩
    ∧ UserProfileAPI.getUserById id (.ok ⟨row, some err⟩)
      = ⟨row.map UserProfileAPI.transformUser, false,
         "Failed to complete getUserById. Please try again."⟩
    ∧ (UserProfileAPI.createUser fd now (.ok ⟨row, some err⟩) c).1.success = false
    ∧ (UserProfileAPI.createUser fd now (.ok ⟨row, some err⟩) c).1.message
      = "Failed to complete createUser. Please try again."
    ∧ (UserProfileAPI.updateUser id patch now (.ok ⟨row, some err⟩) c).1.success = false
    ∧ (UserProfileAPI.updateUser id patch now (.ok ⟨row, some err⟩) c).1.message
      = "Failed to complete updateUser. Please try again."
    ∧ (UserProfileAPI.deleteUser id now (.ok (some err)) c).1
      = ⟨true, false, "Failed to complete deleteUser. Please try again."⟩
    ∧ ((SimpleCache.get c (getCacheKey.allUsers page limit) now).1 = none →
        (UserProfileAPI.getAllUsers page limit now (.ok ⟨rows, some err, cnt⟩) c).1.success
          = false
        ∧ (UserProfileAPI.getAllUsers page limit now (.ok ⟨rows, some err, cnt⟩) c).1.message
          = "Failed to complete getAllUsers. Please try again.")
    ∧ ((SimpleCache.get c (getCacheKey.searchUsers query.toLower.trim page limit) now).1
          = none →
        (UserProfileAPI.searchUsers query page limit now (.ok ⟨rows, some err, cnt⟩) c).1.success
          = false
        ∧ (UserProfileAPI.searchUsers query page limit now (.ok ⟨rows, some err, cnt⟩) c).1.message
          = "Failed to complete searchUsers. Please try again.") := by
  have hmain : ∀ (β : Type) (d : β) (sm ctx : String),
      UserProfileAPI.handleSupabaseResponse d (some err) sm ctx
        = ⟨d, false, "Failed to complete " ++ ctx ++ ". Please try again."⟩ := by
    intro β d sm ctx
    unfold UserProfileAPI.handleSupabaseResponse
    simp [h]
  refine ⟨hmain α data successMessage context,
    hmain _ (row.map UserProfileAPI.transformUser) "User found" "getUserById",
    ?_, ?_, ?_, ?_,
    hmain Bool true "User deleted successfully" "deleteUser",
    ?_, ?_⟩
  · exact congrArg ApiResponse.success (hmain User
      (match row with | some r => UserProfileAPI.transformUser r | none => emptyObjUser)
      "User created successfully" "createUser")
  · exact congrArg ApiResponse.message (hmain User
      (match row with | some r => UserProfileAPI.transformUser r | none => emptyObjUser)
      "User created successfully" "createUser")
  · exact congrArg ApiResponse.success (hmain User
      (match row with | some r => UserProfileAPI.transformUser r | none => emptyObjUser)
      "User updated successfully" "updateUser")
  · exact congrArg ApiResponse.message (hmain User
      (match row with | some r => UserProfileAPI.transformUser r | none => emptyObjUser)
      "User updated successfully" "updateUser")
  · intro hmiss
    rcases hq : SimpleCache.get c (getCacheKey.allUsers page limit) now with ⟨v, c1⟩
    rw [hq] at hmiss
    simp only at hmiss
    subst hmiss
    constructor
    · simp only [UserProfileAPI.getAllUsers, hq]
      exact (handleSupabaseResponse_error_spec _ err _ _).2
    · simp only [UserProfileAPI.getAllUsers, hq]
      exact congrArg ApiResponse.message (hmain ListResult _
        "Users retrieved successfully" "getAllUsers")
  · intro hmiss
    rcases hq : SimpleCache.get c (getCacheKey.searchUsers query.toLower.trim page limit) now
      with ⟨v, c1⟩
    rw [hq] at hmiss
    simp only at hmiss
    subst hmiss
    constructor
    · simp only [UserProfileAPI.searchUsers, hq]
      exact (handleSupabaseResponse_error_spec _ err _ _).2
    · simp only [UserProfileAPI.searchUsers, hq]
      exact congrArg ApiResponse.message (hmain ListResult _
        ("Found " ++ toString (jsOrNum cnt 0) ++ " users") "searchUsers")

/-- Witness for C8 on a concrete unmapped code. -/
theorem unknown_code_generic_envelope_witness :
    lookupErrorMap ("XX123" : String) = none
    ∧ UserProfileAPI.handleSupabaseResponse (0 : Nat)
        (some ⟨"XX123", "boom", "", ""⟩) "ok" "getUserById"
      = ⟨0, false, "Failed to complete " ++ "getUserById" ++ ". Please try again."⟩ :=
  ⟨by decide,
   (unknown_code_generic_envelope Nat 0 ⟨"XX123", "boom", "", ""⟩ "ok" "getUserById"
      [] "u1" "q" wUserData wPatch none none none 1 20 0 (by decide)).1⟩

/-- Claim C10 (confirmed): starting from the empty cache, no sequence of
facade calls ever stores a key carrying the per-id pattern — `getUserById`
neither reads nor writes the cache — so the per-id invalidation of
`updateUser`/`deleteUser` always deletes an absent key. -/
theorem no_user_id_cache_key (ops : List FacadeStep) (k : String)
    (hk : strStarts k "users:id:" = true) :
    jsMapGet (runOps ops) k = none
    ∧ ∀ (c : UserCache) (id : String)
        (outcome : Except (Option JsError) SelectOneResult),
        applyStep c (FacadeStep.stepGetById id outcome) = c :=
  ⟨cacheGood_no_id_key _ (cacheGood_runOps ops) k hk, fun _ _ _ => rfl⟩

/-- Witness for C10 on a concrete call sequence that lists, creates and
updates. -/
theorem no_user_id_cache_key_witness :
    strStarts (getCacheKey.userById "7") "users:id:" = true
    ∧ jsMapGet (runOps
        [FacadeStep.stepCreate wUserData 0 (.ok ⟨none, none⟩),
         FacadeStep.stepGetAll 1 20 0 (.ok ⟨some [], none, some 0⟩),
         FacadeStep.stepUpdate "7" wPatch 1 (.ok ⟨none, none⟩)])
        (getCacheKey.userById "7") = none :=
  ⟨by decide,
   (no_user_id_cache_key
      [FacadeStep.stepCreate wUserData 0 (.ok ⟨none, none⟩),
       FacadeStep.stepGetAll 1 20 0 (.ok ⟨some [], none, some 0⟩),
       FacadeStep.stepUpdate "7" wPatch 1 (.ok ⟨none, none⟩)]
      (getCacheKey.userById "7") (by decide)).1⟩

end UserProfiles
